import Mathlib

/-!
Shallow embedding of the simulation and interaction core of the Conway's
Game of Life component (`src/src/game-of-life.tsx`).  Grids are lists of
rows of booleans, exactly the `boolean[][]` of the source; the component's
React state cells become fields of a `GameState` record and each event
handler becomes a state transition function.  The JavaScript numbers used
for viewport measurements are modelled as rationals.
-/

namespace GameOfLife

/-- A grid is a list of rows, each a list of boolean cell states
(`boolean[][]` in the source). -/
abbrev Grid := List (List Bool)

/-- Read the cell `grid[r][c]`; an out-of-range read yields `false`
(the source only ever indexes in bounds). -/
def getCell (g : Grid) (r c : Nat) : Bool :=
  (g.getD r []).getD c false

/-- The eight neighbor offsets, the `directions` array of `countNeighbors`. -/
def directions : List (Int × Int) :=
  [(-1, -1), (-1, 0), (-1, 1), (0, -1), (0, 1), (1, -1), (1, 0), (1, 1)]

/-- `countNeighbors(grid, row, col)` from the source: fold over the eight
offsets, adding 1 for each offset that lands inside
`[0, grid.length) × [0, grid[0].length)` on a live cell. -/
def countNeighbors (g : Grid) (row col : Nat) : Nat :=
  directions.foldl
    (fun count d =>
      let newRow : Int := (row : Int) + d.1
      let newCol : Int := (col : Int) + d.2
      if 0 ≤ newRow ∧ newRow < (g.length : Int) ∧
          0 ≤ newCol ∧ newCol < (((g.headD []).length : Nat) : Int) then
        if getCell g newRow.toNat newCol.toNat then count + 1 else count
      else count)
    0

/-- Index-aware map, the functional rendering of the source's
`for (let row = 0; ...)` loops that write each position of the copied grid. -/
def mapWithIdx (f : Nat → α → β) : Nat → List α → List β
  | _, [] => []
  | i, a :: as => f i a :: mapWithIdx f (i + 1) as

/-- `nextGeneration(currentGrid)` from the source: copy the grid, then for
every `row < grid.length` and `col < grid[0].length` write the B3/S23 rule
result computed from the *input* grid; positions beyond `grid[0].length`
keep the copied value.  The input is a pure value here, so it is untouched,
matching the source's write-only-to-`newGrid` discipline. -/
def nextGeneration (g : Grid) : Grid :=
  let cols := (g.headD []).length
  mapWithIdx
    (fun row rowCells =>
      mapWithIdx
        (fun col cell =>
          if col < cols then
            let neighbors := countNeighbors g row col
            if cell then decide (neighbors = 2 ∨ neighbors = 3)
            else decide (neighbors = 3)
          else cell)
        0 rowCells)
    0 g

/-- `getPopulation(grid)`: number of live cells. -/
def getPopulation (g : Grid) : Nat :=
  (g.flatten.filter (fun cell => cell)).length

/-- `CELL_SIZE` constant of the source. -/
def CELL_SIZE : ℚ := 20

/-- Result of `getGridDimensions`. -/
structure Dimensions where
  rows : Int
  cols : Int
  isMobile : Bool
  isTablet : Bool
  isDesktop : Bool
deriving Repr, DecidableEq

/-- `getGridDimensions` from the source, with the window measurements as
rationals (JavaScript numbers): pick the usable region per device class,
then clamp `floor(region / CELL_SIZE)` into the row/column bounds. -/
def getGridDimensions (windowWidth windowHeight : ℚ) : Dimensions :=
  let isMobile := windowWidth < 768
  let isTablet := 768 ≤ windowWidth ∧ windowWidth < 1024
  let isDesktop := 1024 ≤ windowWidth
  let containerHeight : ℚ :=
    if isMobile then max (windowHeight * (3 / 10)) 250
    else if isTablet then max (windowHeight - 200) 400
    else max (windowHeight - 200) 500
  let containerWidth : ℚ :=
    if isMobile then max (windowWidth - 40) 300
    else if isTablet then max (windowWidth * (1 / 2)) 400
    else max (windowHeight - 200) 500
  let rows : Int :=
    max (min ⌊containerHeight / CELL_SIZE⌋ (if isMobile then 25 else 40)) 8
  let cols : Int := max (min ⌊containerWidth / CELL_SIZE⌋ 40) 10
  ⟨rows, cols, decide isMobile, decide isTablet, decide isDesktop⟩

/-- `initializeGrid` from the source: all-dead grid of the computed
dimensions, with the defensive fallback to a 15×20 default when the
computed dimensions are out of `(0, 100]`. -/
def initializeGrid (windowWidth windowHeight : ℚ) : Grid :=
  let d := getGridDimensions windowWidth windowHeight
  if d.rows ≤ 0 ∨ d.cols ≤ 0 ∨ 100 < d.rows ∨ 100 < d.cols then
    List.replicate 15 (List.replicate 20 false)
  else
    List.replicate d.rows.toNat (List.replicate d.cols.toNat false)

/-- The two drag modes of the source's `dragMode` state. -/
inductive DragMode
  | paint
  | erase
deriving Repr, DecidableEq

/-- The component's React state cells: `grid`, `isRunning`, `generation`,
`speed` (milliseconds, the single entry of the `speed` array state),
`isDragging`, `dragMode`. -/
structure GameState where
  grid : Grid
  isRunning : Bool
  generation : Nat
  speed : Int
  isDragging : Bool
  dragMode : DragMode
deriving Repr, DecidableEq

/-- The body of the interval callback of the game-loop effect: replace the
grid by `nextGeneration` of the current grid and increment `generation`,
in one state transition.  The interval only exists while `isRunning`. -/
def tick (s : GameState) : GameState :=
  { s with grid := nextGeneration s.grid, generation := s.generation + 1 }

/-- The grid update of `toggleCell`: copy-on-write of row `row`, flipping
column `col`. -/
def setCellGrid (g : Grid) (row col : Nat) (v : Bool) : Grid :=
  g.set row ((g.getD row []).set col v)

/-- `toggleCell(row, col)` from the source. -/
def toggleCell (s : GameState) (row col : Nat) : GameState :=
  { s with grid := setCellGrid s.grid row col (!getCell s.grid row col) }

/-- `handleCellInteraction(row, col, isClick)` from the source: no-op while
running; a click toggles the cell and derives `dragMode` from the cell's
pre-toggle value (the `grid` captured by the handler's closure); a
non-click only acts while dragging, setting the cell to
`dragMode === "paint"`. -/
def handleCellInteraction (s : GameState) (row col : Nat) (isClick : Bool) :
    GameState :=
  if s.isRunning then s
  else if isClick then
    let s1 := toggleCell s row col
    { s1 with
      dragMode := if getCell s.grid row col then DragMode.erase else DragMode.paint }
  else if s.isDragging then
    { s with grid := setCellGrid s.grid row col (decide (s.dragMode = DragMode.paint)) }
  else s

/-- `handleMouseDown(row, col)` from the source: no-op while running, else
start dragging and process the click. -/
def handleMouseDown (s : GameState) (row col : Nat) : GameState :=
  if s.isRunning then s
  else handleCellInteraction { s with isDragging := true } row col true

/-- `handleMouseEnter(row, col)` from the source. -/
def handleMouseEnter (s : GameState) (row col : Nat) : GameState :=
  handleCellInteraction s row col false

/-- `handleMouseUp()` from the source: stop dragging. -/
def handleMouseUp (s : GameState) : GameState :=
  { s with isDragging := false }

/-- `clearGrid()` from the source: reinitialize the grid from the current
viewport, reset `generation` to 0 and stop the simulation. -/
def clearGrid (s : GameState) (windowWidth windowHeight : ℚ) : GameState :=
  { s with
    grid := initializeGrid windowWidth windowHeight
    generation := 0
    isRunning := false }

/-- Modelled from the spec: the speed slider is the external
`@/components/ui/slider` widget, whose sources are not part of this
repository; per the spec, a speed-change request with a value outside
`[100, 2000]` is clamped to the nearest bound before being stored. -/
def onSpeedChanged (s : GameState) (ms : Int) : GameState :=
  { s with speed := max (min ms 2000) 100 }

/-- A grid is rectangular when every row has the first row's length. -/
def Rectangular (g : Grid) : Prop :=
  ∀ row ∈ g, row.length = (g.headD []).length

/-- A neighbor offset `d` of `(row, col)` lands in bounds on a live cell. -/
def neighborIsLive (g : Grid) (row col : Nat) (d : Int × Int) : Bool :=
  decide (0 ≤ (row : Int) + d.1 ∧ (row : Int) + d.1 < (g.length : Int) ∧
      0 ≤ (col : Int) + d.2 ∧ (col : Int) + d.2 < (((g.headD []).length : Nat) : Int)) &&
    getCell g ((row : Int) + d.1).toNat ((col : Int) + d.2).toNat

/-- A concrete state used to instantiate theorems with hypotheses. -/
def sampleState : GameState :=
  { grid := [[true, true], [true, false]]
    isRunning := true
    generation := 0
    speed := 500
    isDragging := false
    dragMode := DragMode.paint }

theorem mapWithIdx_length (f : Nat → α → β) (i : Nat) (l : List α) :
    (mapWithIdx f i l).length = l.length := by
  induction l generalizing i with
  | nil => rfl
  | cons a as ih => simp [mapWithIdx, ih]

theorem mapWithIdx_getD (f : Nat → α → β) (i n : Nat) (l : List α) (d : α)
    (d2 : β) (h : n < l.length) :
    (mapWithIdx f i l).getD n d2 = f (i + n) (l.getD n d) := by
  induction l generalizing i n with
  | nil => simp at h
  | cons a as ih =>
    cases n with
    | zero => rfl
    | succ m =>
      have hm : m < as.length := by simpa using h
      have := ih (i + 1) m hm
      simpa [mapWithIdx, Nat.add_assoc, Nat.add_comm 1 m] using this

theorem foldl_nested_if (P : α → Prop) [DecidablePred P] (b : α → Bool)
    (l : List α) (n : Nat) :
    l.foldl (fun count d => if P d then (if b d then count + 1 else count) else count) n
      = n + (l.filter (fun d => decide (P d) && b d)).length := by
  induction l generalizing n with
  | nil => simp
  | cons a as ih =>
    simp only [List.foldl_cons, List.filter_cons]
    by_cases h1 : P a
    · by_cases h2 : b a
      · simp [h1, h2, ih]
        omega
      · simp [h1, h2, ih]
    · simp [h1, ih]

theorem countNeighbors_eq_filter (g : Grid) (row col : Nat) :
    countNeighbors g row col
      = (directions.filter (neighborIsLive g row col)).length := by
  have h := foldl_nested_if
    (fun d : Int × Int => 0 ≤ (row : Int) + d.1 ∧ (row : Int) + d.1 < (g.length : Int) ∧
      0 ≤ (col : Int) + d.2 ∧ (col : Int) + d.2 < (((g.headD []).length : Nat) : Int))
    (fun d : Int × Int => getCell g ((row : Int) + d.1).toNat ((col : Int) + d.2).toNat)
    directions 0
  rw [Nat.zero_add] at h
  exact h

theorem nextGeneration_length (g : Grid) :
    (nextGeneration g).length = g.length := by
  simp [nextGeneration, mapWithIdx_length]

theorem nextGeneration_row_length (g : Grid) (r : Nat) (hr : r < g.length) :
    ((nextGeneration g).getD r []).length = (g.getD r []).length := by
  rw [nextGeneration]
  rw [mapWithIdx_getD _ 0 r g [] [] hr]
  simp [mapWithIdx_length]

theorem getCell_nextGeneration (g : Grid) (r c : Nat) (hr : r < g.length)
    (hc : c < (g.headD []).length) (hrow : c < (g.getD r []).length) :
    getCell (nextGeneration g) r c =
      (if getCell g r c then
        decide (countNeighbors g r c = 2 ∨ countNeighbors g r c = 3)
      else decide (countNeighbors g r c = 3)) := by
  simp only [getCell, nextGeneration]
  rw [mapWithIdx_getD _ 0 r g [] [] hr]
  rw [mapWithIdx_getD _ 0 c (g.getD r []) false false hrow]
  simp only [Nat.zero_add]
  rw [if_pos hc]

theorem rectangular_row_length (g : Grid) (hrect : Rectangular g) (r : Nat)
    (hr : r < g.length) : (g.getD r []).length = (g.headD []).length := by
  apply hrect
  rw [List.getD_eq_getElem?_getD, List.getElem?_eq_getElem hr]
  exact List.getElem_mem hr

/-- **C1**: on a rectangular grid, `nextGeneration` yields a grid of the
same dimensions in which a cell is alive iff it was alive with exactly 2
or 3 live neighbors, or dead with exactly 3 live neighbors, all neighbor
counts taken on the input grid (the input, a pure value, is untouched). -/
theorem nextGeneration_spec (g : Grid) (hrect : Rectangular g) (r c : Nat)
    (hr : r < g.length) (hc : c < (g.headD []).length) :
    (nextGeneration g).length = g.length ∧
    (∀ i, i < g.length →
      ((nextGeneration g).getD i []).length = (g.getD i []).length) ∧
    (getCell (nextGeneration g) r c = true ↔
      ((getCell g r c = true ∧
          (countNeighbors g r c = 2 ∨ countNeighbors g r c = 3)) ∨
        (getCell g r c = false ∧ countNeighbors g r c = 3))) := by
  refine ⟨nextGeneration_length g, fun i hi => nextGeneration_row_length g i hi, ?_⟩
  have hrow : c < (g.getD r []).length := by
    rw [rectangular_row_length g hrect r hr]; exact hc
  rw [getCell_nextGeneration g r c hr hc hrow]
  by_cases hcell : getCell g r c = true
  · simp [hcell]
  · rw [Bool.not_eq_true] at hcell
    simp [hcell]

/-- Witness for C1 on a concrete 2×2 block. -/
theorem nextGeneration_spec_witness :
    Rectangular [[true, true], [true, true]] ∧ 0 < 2 ∧
    (getCell (nextGeneration [[true, true], [true, true]]) 0 0 = true ↔
      ((getCell [[true, true], [true, true]] 0 0 = true ∧
          (countNeighbors [[true, true], [true, true]] 0 0 = 2 ∨
            countNeighbors [[true, true], [true, true]] 0 0 = 3)) ∨
        (getCell [[true, true], [true, true]] 0 0 = false ∧
          countNeighbors [[true, true], [true, true]] 0 0 = 3))) := by
  refine ⟨by unfold Rectangular; decide, by decide, ?_⟩
  exact (nextGeneration_spec [[true, true], [true, true]] (by unfold Rectangular; decide) 0 0
    (by decide) (by decide)).2.2

/-- **C2**: `countNeighbors` returns at most 8, and equals the number of
the eight fixed offsets that land inside `[0,R)×[0,C)` on a live cell of
the input grid; an offset landing outside contributes nothing. -/
theorem countNeighbors_spec (g : Grid) (_hrect : Rectangular g) (row col : Nat)
    (_hrow : row < g.length) (_hcol : col < (g.headD []).length) :
    countNeighbors g row col
        = (directions.filter (neighborIsLive g row col)).length ∧
      countNeighbors g row col ≤ 8 := by
  refine ⟨countNeighbors_eq_filter g row col, ?_⟩
  rw [countNeighbors_eq_filter g row col]
  exact le_trans (List.length_filter_le _ _) (by decide)

/-- Witness for C2 on a concrete grid. -/
theorem countNeighbors_spec_witness :
    Rectangular [[true, true], [true, false]] ∧ (0 : Nat) < 2 ∧
    countNeighbors [[true, true], [true, false]] 0 0
        = (directions.filter (neighborIsLive [[true, true], [true, false]] 0 0)).length ∧
      countNeighbors [[true, true], [true, false]] 0 0 ≤ 8 := by
  refine ⟨by unfold Rectangular; decide, by decide, ?_⟩
  exact countNeighbors_spec [[true, true], [true, false]] (by unfold Rectangular; decide) 0 0
    (by decide) (by decide)

/-- **C3**: a simulation tick, taken while `isRunning`, replaces the grid
with `nextGeneration` of the current grid and increments the generation
counter by exactly 1, in the same atomic state transition; nothing else
changes. -/
theorem tick_spec (s : GameState) (_h : s.isRunning = true) :
    (tick s).grid = nextGeneration s.grid ∧
    (tick s).generation = s.generation + 1 ∧
    (tick s).isRunning = s.isRunning ∧
    (tick s).speed = s.speed ∧
    (tick s).isDragging = s.isDragging ∧
    (tick s).dragMode = s.dragMode := by
  simp [tick]

/-- Witness for C3 at a concrete running state. -/
theorem tick_spec_witness :
    (tick sampleState).grid = nextGeneration sampleState.grid ∧
    (tick sampleState).generation = sampleState.generation + 1 ∧
    (tick sampleState).isRunning = sampleState.isRunning ∧
    (tick sampleState).speed = sampleState.speed ∧
    (tick sampleState).isDragging = sampleState.isDragging ∧
    (tick sampleState).dragMode = sampleState.dragMode :=
  tick_spec sampleState rfl

/-- **C5**: while `isRunning`, pointer-down, pointer-enter and pointer-up
all leave the grid and the generation counter unchanged. -/
theorem running_pointer_noop (s : GameState) (row col : Nat)
    (h : s.isRunning = true) :
    (handleMouseDown s row col).grid = s.grid ∧
    (handleMouseDown s row col).generation = s.generation ∧
    (handleMouseEnter s row col).grid = s.grid ∧
    (handleMouseEnter s row col).generation = s.generation ∧
    (handleMouseUp s).grid = s.grid ∧
    (handleMouseUp s).generation = s.generation := by
  simp [handleMouseDown, handleMouseEnter, handleCellInteraction, handleMouseUp, h]

/-- Witness for C5 at a concrete running state. -/
theorem running_pointer_noop_witness :
    (handleMouseDown sampleState 0 0).grid = sampleState.grid ∧
    (handleMouseDown sampleState 0 0).generation = sampleState.generation ∧
    (handleMouseEnter sampleState 0 0).grid = sampleState.grid ∧
    (handleMouseEnter sampleState 0 0).generation = sampleState.generation ∧
    (handleMouseUp sampleState).grid = sampleState.grid ∧
    (handleMouseUp sampleState).generation = sampleState.generation :=
  running_pointer_noop sampleState 0 0 rfl

/-- **C9** (spec-modelled slider): an out-of-range speed request is clamped
to the nearest bound; the stored speed always lies in `[100, 2000]`. -/
theorem onSpeedChanged_clamps (s : GameState) (ms : Int) :
    100 ≤ (onSpeedChanged s ms).speed ∧ (onSpeedChanged s ms).speed ≤ 2000 ∧
    (ms < 100 → (onSpeedChanged s ms).speed = 100) ∧
    (2000 < ms → (onSpeedChanged s ms).speed = 2000) ∧
    (100 ≤ ms → ms ≤ 2000 → (onSpeedChanged s ms).speed = ms) := by
  unfold onSpeedChanged
  refine ⟨?_, ?_, ?_, ?_, ?_⟩ <;> simp <;> omega

/-- Witness for C9 at concrete out-of-range and in-range requests. -/
theorem onSpeedChanged_clamps_witness :
    ((3000 : Int) > 2000 ∧ (onSpeedChanged sampleState 3000).speed = 2000) ∧
    ((50 : Int) < 100 ∧ (onSpeedChanged sampleState 50).speed = 100) ∧
    ((100 : Int) ≤ 700 ∧ (700 : Int) ≤ 2000 ∧
      (onSpeedChanged sampleState 700).speed = 700) :=
  ⟨⟨by decide, (onSpeedChanged_clamps sampleState 3000).2.2.2.1 (by decide)⟩,
    ⟨by decide, (onSpeedChanged_clamps sampleState 50).2.2.1 (by decide)⟩,
    ⟨by decide, by decide,
      (onSpeedChanged_clamps sampleState 700).2.2.2.2 (by decide) (by decide)⟩⟩

theorem getGridDimensions_rows (w h : ℚ) :
    (getGridDimensions w h).rows =
      max (min ⌊(if w < 768 then max (h * (3 / 10)) 250
          else if 768 ≤ w ∧ w < 1024 then max (h - 200) 400
          else max (h - 200) 500) / CELL_SIZE⌋
        (if w < 768 then 25 else 40)) 8 := rfl

theorem getGridDimensions_cols (w h : ℚ) :
    (getGridDimensions w h).cols =
      max (min ⌊(if w < 768 then max (w - 40) 300
          else if 768 ≤ w ∧ w < 1024 then max (w * (1 / 2)) 400
          else max (h - 200) 500) / CELL_SIZE⌋ 40) 10 := rfl

theorem getGridDimensions_isMobile (w h : ℚ) :
    (getGridDimensions w h).isMobile = decide (w < 768) := rfl

theorem rows_bounds (w h : ℚ) :
    8 ≤ (getGridDimensions w h).rows ∧ (getGridDimensions w h).rows ≤ 40 ∧
      ((getGridDimensions w h).isMobile = true → (getGridDimensions w h).rows ≤ 25) := by
  rw [getGridDimensions_rows, getGridDimensions_isMobile]
  refine ⟨le_max_right _ _, ?_, ?_⟩
  · by_cases hm : w < 768
    · simp only [hm, if_true]
      exact max_le (le_trans (min_le_right _ _) (by norm_num)) (by norm_num)
    · simp only [hm, if_false]
      exact max_le (min_le_right _ _) (by norm_num)
  · intro hmob
    rw [decide_eq_true_eq] at hmob
    simp only [hmob, if_true]
    exact max_le (min_le_right _ _) (by norm_num)

theorem cols_bounds (w h : ℚ) :
    10 ≤ (getGridDimensions w h).cols ∧ (getGridDimensions w h).cols ≤ 40 := by
  rw [getGridDimensions_cols]
  exact ⟨le_max_right _ _, max_le (min_le_right _ _) (by norm_num)⟩

theorem initializeGrid_eq (w h : ℚ) :
    initializeGrid w h =
      List.replicate (getGridDimensions w h).rows.toNat
        (List.replicate (getGridDimensions w h).cols.toNat false) := by
  have h1 := (rows_bounds w h).1
  have h2 := (rows_bounds w h).2.1
  have h3 := (cols_bounds w h).1
  have h4 := (cols_bounds w h).2
  simp only [initializeGrid]
  rw [if_neg (by omega)]

theorem getPopulation_all_false (n m : Nat) :
    getPopulation (List.replicate n (List.replicate m false)) = 0 := by
  rw [getPopulation, List.length_eq_zero, List.filter_eq_nil_iff]
  intro a ha
  rw [List.mem_flatten] at ha
  obtain ⟨row, hrow, hcell⟩ := ha
  rw [List.eq_of_mem_replicate hrow] at hcell
  rw [List.eq_of_mem_replicate hcell]
  simp

/-- **C7**: clearing yields generation 0, a stopped simulation and an
all-dead grid of the dimensions computed for the current viewport. -/
theorem clearGrid_spec (s : GameState) (w h : ℚ) :
    (clearGrid s w h).generation = 0 ∧
    (clearGrid s w h).isRunning = false ∧
    getPopulation (clearGrid s w h).grid = 0 ∧
    (clearGrid s w h).grid.length = (getGridDimensions w h).rows.toNat ∧
    (∀ row ∈ (clearGrid s w h).grid,
      row.length = (getGridDimensions w h).cols.toNat) := by
  have hg : (clearGrid s w h).grid = initializeGrid w h := rfl
  refine ⟨rfl, rfl, ?_, ?_, ?_⟩
  · rw [hg, initializeGrid_eq]
    exact getPopulation_all_false _ _
  · rw [hg, initializeGrid_eq, List.length_replicate]
  · intro row hrow
    rw [hg, initializeGrid_eq] at hrow
    rw [List.eq_of_mem_replicate hrow, List.length_replicate]

/-- **C8**: for any viewport, the computed rows lie in `[8, 25]` on mobile
and `[8, 40]` otherwise, the columns in `[10, 40]`; hence the defensive
15×20 fallback of `initializeGrid` is never taken. -/
theorem gridDimensions_spec (w h : ℚ) (_hw : 0 ≤ w) (_hh : 0 ≤ h) :
    (8 ≤ (getGridDimensions w h).rows ∧
      ((getGridDimensions w h).isMobile = true →
        (getGridDimensions w h).rows ≤ 25) ∧
      (getGridDimensions w h).rows ≤ 40 ∧
      10 ≤ (getGridDimensions w h).cols ∧ (getGridDimensions w h).cols ≤ 40) ∧
    ¬((getGridDimensions w h).rows ≤ 0 ∨ (getGridDimensions w h).cols ≤ 0 ∨
        100 < (getGridDimensions w h).rows ∨
        100 < (getGridDimensions w h).cols) ∧
    initializeGrid w h =
      List.replicate (getGridDimensions w h).rows.toNat
        (List.replicate (getGridDimensions w h).cols.toNat false) := by
  have h1 := (rows_bounds w h).1
  have h2 := (rows_bounds w h).2.1
  have h3 := (rows_bounds w h).2.2
  have h4 := (cols_bounds w h).1
  have h5 := (cols_bounds w h).2
  exact ⟨⟨h1, h3, h2, h4, h5⟩, by omega, initializeGrid_eq w h⟩

/-- Witness for C8 at a concrete desktop viewport. -/
theorem gridDimensions_spec_witness :
    (0 : ℚ) ≤ 1200 ∧ (0 : ℚ) ≤ 800 ∧
    ((8 ≤ (getGridDimensions 1200 800).rows ∧
      ((getGridDimensions 1200 800).isMobile = true →
        (getGridDimensions 1200 800).rows ≤ 25) ∧
      (getGridDimensions 1200 800).rows ≤ 40 ∧
      10 ≤ (getGridDimensions 1200 800).cols ∧
      (getGridDimensions 1200 800).cols ≤ 40) ∧
    ¬((getGridDimensions 1200 800).rows ≤ 0 ∨
        (getGridDimensions 1200 800).cols ≤ 0 ∨
        100 < (getGridDimensions 1200 800).rows ∨
        100 < (getGridDimensions 1200 800).cols) ∧
    initializeGrid 1200 800 =
      List.replicate (getGridDimensions 1200 800).rows.toNat
        (List.replicate (getGridDimensions 1200 800).cols.toNat false)) :=
  ⟨by norm_num, by norm_num,
    gridDimensions_spec 1200 800 (by norm_num) (by norm_num)⟩

theorem getD_set_self (l : List α) (i : Nat) (a d : α) (h : i < l.length) :
    (l.set i a).getD i d = a := by
  rw [List.getD_eq_getElem?_getD, List.getElem?_set_self', List.getElem?_eq_getElem h]
  rfl

theorem getD_set_ne (l : List α) (i j : Nat) (a d : α) (h : i ≠ j) :
    (l.set i a).getD j d = l.getD j d := by
  rw [List.getD_eq_getElem?_getD, List.getElem?_set_ne h, ← List.getD_eq_getElem?_getD]

theorem setCellGrid_length (g : Grid) (row col : Nat) (v : Bool) :
    (setCellGrid g row col v).length = g.length :=
  List.length_set g row _

theorem setCellGrid_getD_row (g : Grid) (row col : Nat) (v : Bool)
    (hr : row < g.length) :
    (setCellGrid g row col v).getD row [] = (g.getD row []).set col v :=
  getD_set_self g row _ [] hr

theorem getCell_setCellGrid_self (g : Grid) (row col : Nat) (v : Bool)
    (hr : row < g.length) (hc : col < (g.getD row []).length) :
    getCell (setCellGrid g row col v) row col = v := by
  rw [getCell, setCellGrid_getD_row g row col v hr, getD_set_self _ _ _ _ hc]

theorem getCell_setCellGrid_ne_col (g : Grid) (row col col2 : Nat) (v : Bool)
    (hr : row < g.length) (h : col ≠ col2) :
    getCell (setCellGrid g row col v) row col2 = getCell g row col2 := by
  rw [getCell, setCellGrid_getD_row g row col v hr, getD_set_ne _ _ _ _ _ h, getCell]

theorem lt_length_of_getCell_true (g : Grid) (r c : Nat)
    (h : getCell g r c = true) : c < (g.getD r []).length := by
  by_contra hc
  push_neg at hc
  rw [getCell, List.getD_eq_default _ _ hc] at h
  exact Bool.false_ne_true h

theorem handleMouseDown_eq (s : GameState) (r c : Nat)
    (hrun : s.isRunning = false) :
    handleMouseDown s r c =
      { s with
        grid := setCellGrid s.grid r c (!getCell s.grid r c)
        isDragging := true
        dragMode :=
          if getCell s.grid r c then DragMode.erase else DragMode.paint } := by
  simp [handleMouseDown, handleCellInteraction, toggleCell, hrun]

theorem handleMouseEnter_dragging_eq (t : GameState) (r2 c2 : Nat)
    (hrun : t.isRunning = false) (hdrag : t.isDragging = true) :
    handleMouseEnter t r2 c2 =
      { t with
        grid := setCellGrid t.grid r2 c2 (decide (t.dragMode = DragMode.paint)) } := by
  simp [handleMouseEnter, handleCellInteraction, hrun, hdrag]

/-- **C6**: a drag started while paused toggles the pressed cell to the
opposite of its pre-toggle value `v`, fixes the drag mode to erase when
`v` was alive and paint when it was dead, and every subsequent
pointer-enter of the gesture sets the entered cell to alive iff the mode
is paint; in particular dragging from a live cell into a live neighbor
leaves both dead, dragging from a dead cell into a live neighbor leaves
both alive, and no edit changes the generation counter. -/
theorem drag_gesture_spec (s : GameState) (r c : Nat)
    (hrun : s.isRunning = false) (hr : r < s.grid.length)
    (hc : c < (s.grid.getD r []).length) :
    getCell (handleMouseDown s r c).grid r c = !getCell s.grid r c ∧
    (handleMouseDown s r c).dragMode =
      (if getCell s.grid r c then DragMode.erase else DragMode.paint) ∧
    (handleMouseDown s r c).isDragging = true ∧
    (handleMouseDown s r c).generation = s.generation ∧
    (∀ t : GameState, ∀ r2 c2 : Nat,
      t.isRunning = false → t.isDragging = true →
      (handleMouseEnter t r2 c2).grid
          = setCellGrid t.grid r2 c2 (decide (t.dragMode = DragMode.paint)) ∧
        (handleMouseEnter t r2 c2).generation = t.generation) ∧
    (getCell s.grid r c = true → getCell s.grid r (c + 1) = true →
      getCell (handleMouseEnter (handleMouseDown s r c) r (c + 1)).grid r c
          = false ∧
        getCell (handleMouseEnter (handleMouseDown s r c) r (c + 1)).grid r
            (c + 1) = false) ∧
    (getCell s.grid r c = false → getCell s.grid r (c + 1) = true →
      getCell (handleMouseEnter (handleMouseDown s r c) r (c + 1)).grid r c
          = true ∧
        getCell (handleMouseEnter (handleMouseDown s r c) r (c + 1)).grid r
            (c + 1) = true) := by
  have hdown := handleMouseDown_eq s r c hrun
  have henter : ∀ t : GameState, ∀ r2 c2 : Nat,
      t.isRunning = false → t.isDragging = true →
      (handleMouseEnter t r2 c2).grid
          = setCellGrid t.grid r2 c2 (decide (t.dragMode = DragMode.paint)) ∧
        (handleMouseEnter t r2 c2).generation = t.generation := by
    intro t r2 c2 ht1 ht2
    rw [handleMouseEnter_dragging_eq t r2 c2 ht1 ht2]
    exact ⟨rfl, rfl⟩
  refine ⟨?_, ?_, ?_, ?_, henter, ?_, ?_⟩
  · rw [hdown]
    exact getCell_setCellGrid_self s.grid r c _ hr hc
  · rw [hdown]
  · rw [hdown]
  · rw [hdown]
  · intro hv hv2
    have hc2 := lt_length_of_getCell_true s.grid r (c + 1) hv2
    have hgrid2 :
        (handleMouseEnter (handleMouseDown s r c) r (c + 1)).grid
          = setCellGrid (setCellGrid s.grid r c false) r (c + 1) false := by
      rw [(henter (handleMouseDown s r c) r (c + 1) (by rw [hdown]; exact hrun)
        (by rw [hdown])).1]
      rw [hdown]
      simp [hv]
    constructor
    · rw [hgrid2,
        getCell_setCellGrid_ne_col _ r (c + 1) c false
          (by rw [setCellGrid_length]; exact hr) (by omega),
        getCell_setCellGrid_self s.grid r c false hr hc]
    · rw [hgrid2]
      exact getCell_setCellGrid_self _ r (c + 1) false
        (by rw [setCellGrid_length]; exact hr)
        (by rw [setCellGrid_getD_row _ _ _ _ hr, List.length_set]; exact hc2)
  · intro hv hv2
    have hc2 := lt_length_of_getCell_true s.grid r (c + 1) hv2
    have hgrid2 :
        (handleMouseEnter (handleMouseDown s r c) r (c + 1)).grid
          = setCellGrid (setCellGrid s.grid r c true) r (c + 1) true := by
      rw [(henter (handleMouseDown s r c) r (c + 1) (by rw [hdown]; exact hrun)
        (by rw [hdown])).1]
      rw [hdown]
      simp [hv]
    constructor
    · rw [hgrid2,
        getCell_setCellGrid_ne_col _ r (c + 1) c true
          (by rw [setCellGrid_length]; exact hr) (by omega),
        getCell_setCellGrid_self s.grid r c true hr hc]
    · rw [hgrid2]
      exact getCell_setCellGrid_self _ r (c + 1) true
        (by rw [setCellGrid_length]; exact hr)
        (by rw [setCellGrid_getD_row _ _ _ _ hr, List.length_set]; exact hc2)

/-- A concrete paused idle state used to instantiate the drag theorems. -/
def idleState : GameState :=
  { grid := [[true, true], [false, true]]
    isRunning := false
    generation := 7
    speed := 500
    isDragging := false
    dragMode := DragMode.paint }

/-- Witness for C6: erase propagation from the live cell (0,0) into the
live cell (0,1), and paint propagation from the dead cell (1,0) into the
live cell (1,1). -/
theorem drag_gesture_spec_witness :
    idleState.isRunning = false ∧ 0 < idleState.grid.length ∧
    0 < (idleState.grid.getD 0 []).length ∧
    getCell (handleMouseDown idleState 0 0).grid 0 0
        = !getCell idleState.grid 0 0 ∧
    (handleMouseDown idleState 0 0).dragMode =
      (if getCell idleState.grid 0 0 then DragMode.erase else DragMode.paint) ∧
    (handleMouseDown idleState 0 0).isDragging = true ∧
    (handleMouseDown idleState 0 0).generation = idleState.generation ∧
    (getCell (handleMouseEnter (handleMouseDown idleState 0 0) 0 1).grid 0 0
        = false ∧
      getCell (handleMouseEnter (handleMouseDown idleState 0 0) 0 1).grid 0 1
        = false) ∧
    (getCell (handleMouseEnter (handleMouseDown idleState 1 0) 1 1).grid 1 0
        = true ∧
      getCell (handleMouseEnter (handleMouseDown idleState 1 0) 1 1).grid 1 1
        = true) := by
  refine ⟨rfl, by decide, by decide, ?_, ?_, ?_, ?_, ?_, ?_⟩
  · exact (drag_gesture_spec idleState 0 0 rfl (by decide) (by decide)).1
  · exact (drag_gesture_spec idleState 0 0 rfl (by decide) (by decide)).2.1
  · exact (drag_gesture_spec idleState 0 0 rfl (by decide) (by decide)).2.2.1
  · exact (drag_gesture_spec idleState 0 0 rfl (by decide) (by decide)).2.2.2.1
  · exact (drag_gesture_spec idleState 0 0 rfl (by decide)
      (by decide)).2.2.2.2.2.1 (by decide) (by decide)
  · exact (drag_gesture_spec idleState 1 0 rfl (by decide)
      (by decide)).2.2.2.2.2.2 (by decide) (by decide)

/-- The rectangular `R × C` grid whose cell `(i, j)` is `f i j`. -/
def mkGrid (R C : Nat) (f : Nat → Nat → Bool) : Grid :=
  (List.range R).map (fun r => (List.range C).map (fun c => f r c))

/-- A horizontal blinker centered at `(r, c)`: live exactly on
`(r, c-1), (r, c), (r, c+1)`. -/
def blinkerH (r c : Nat) : Nat → Nat → Bool := fun i j =>
  decide (i = r ∧ (j + 1 = c ∨ j = c ∨ j = c + 1))

/-- A vertical blinker centered at `(r, c)`: live exactly on
`(r-1, c), (r, c), (r+1, c)`. -/
def blinkerV (r c : Nat) : Nat → Nat → Bool := fun i j =>
  decide (j = c ∧ (i + 1 = r ∨ i = r ∨ i = r + 1))

theorem list_ext_getD (l1 l2 : List α) (d : α) (hlen : l1.length = l2.length)
    (h : ∀ n, n < l1.length → l1.getD n d = l2.getD n d) : l1 = l2 := by
  apply List.ext_getElem hlen
  intro n h1 h2
  have hn := h n h1
  rw [List.getD_eq_getElem?_getD, List.getD_eq_getElem?_getD,
    List.getElem?_eq_getElem h1, List.getElem?_eq_getElem h2] at hn
  simpa using hn

theorem mkGrid_length (R C : Nat) (f : Nat → Nat → Bool) :
    (mkGrid R C f).length = R := by
  simp [mkGrid]

theorem range_map_getD (C m : Nat) (fn : Nat → α) (d : α) (hm : m < C) :
    ((List.range C).map fn).getD m d = fn m := by
  rw [List.getD_eq_getElem?_getD,
    List.getElem?_eq_getElem (by simpa using hm)]
  simp

theorem mkGrid_getD (R C : Nat) (f : Nat → Nat → Bool) (i : Nat) (hi : i < R) :
    (mkGrid R C f).getD i [] = (List.range C).map (f i) := by
  rw [mkGrid, range_map_getD R i _ [] hi]

theorem mkGrid_headD_length (R C : Nat) (f : Nat → Nat → Bool) (hR : 0 < R) :
    ((mkGrid R C f).headD []).length = C := by
  have h0 : (mkGrid R C f).headD [] = (mkGrid R C f).getD 0 [] := by
    cases hg : mkGrid R C f with
    | nil => rfl
    | cons a l => rfl
  rw [h0, mkGrid_getD R C f 0 hR, List.length_map, List.length_range]

theorem getCell_mkGrid (R C : Nat) (f : Nat → Nat → Bool) (i j : Nat)
    (hi : i < R) (hj : j < C) : getCell (mkGrid R C f) i j = f i j := by
  rw [getCell, mkGrid_getD R C f i hi, range_map_getD C j _ false hj]

theorem neighborIsLive_mkGrid (R C : Nat) (f : Nat → Nat → Bool)
    (row col : Nat) (hR : 0 < R) (d : Int × Int) :
    neighborIsLive (mkGrid R C f) row col d =
      decide (0 ≤ (row : Int) + d.1 ∧ (row : Int) + d.1 < (R : Int) ∧
        0 ≤ (col : Int) + d.2 ∧ (col : Int) + d.2 < (C : Int) ∧
        f ((row : Int) + d.1).toNat ((col : Int) + d.2).toNat = true) := by
  rw [neighborIsLive, mkGrid_length, mkGrid_headD_length R C f hR]
  by_cases hP : 0 ≤ (row : Int) + d.1 ∧ (row : Int) + d.1 < (R : Int) ∧
      0 ≤ (col : Int) + d.2 ∧ (col : Int) + d.2 < (C : Int)
  · have hiR : ((row : Int) + d.1).toNat < R := by omega
    have hjC : ((col : Int) + d.2).toNat < C := by omega
    rw [getCell_mkGrid R C f _ _ hiR hjC]
    obtain ⟨p1, p2, p3, p4⟩ := hP
    simp [p1, p2, p3, p4]
  · simp only [decide_eq_false hP, Bool.false_and]
    have : ¬(0 ≤ (row : Int) + d.1 ∧ (row : Int) + d.1 < (R : Int) ∧
        0 ≤ (col : Int) + d.2 ∧ (col : Int) + d.2 < (C : Int) ∧
        f ((row : Int) + d.1).toNat ((col : Int) + d.2).toNat = true) := by
      intro hx
      exact hP ⟨hx.1, hx.2.1, hx.2.2.1, hx.2.2.2.1⟩
    rw [decide_eq_false this]

theorem countNeighbors_mkGrid (R C : Nat) (f : Nat → Nat → Bool)
    (row col : Nat) (hR : 0 < R) :
    countNeighbors (mkGrid R C f) row col =
      (directions.filter (fun d =>
        decide (0 ≤ (row : Int) + d.1 ∧ (row : Int) + d.1 < (R : Int) ∧
          0 ≤ (col : Int) + d.2 ∧ (col : Int) + d.2 < (C : Int) ∧
          f ((row : Int) + d.1).toNat ((col : Int) + d.2).toNat = true))).length := by
  rw [countNeighbors_eq_filter]
  congr 1
  apply List.filter_congr
  intro d _
  exact neighborIsLive_mkGrid R C f row col hR d

theorem nextGeneration_mkGrid_eq (R C : Nat) (hR : 0 < R)
    (f f2 : Nat → Nat → Bool)
    (hcell : ∀ i j, i < R → j < C →
      (if f i j then
        decide (countNeighbors (mkGrid R C f) i j = 2 ∨
          countNeighbors (mkGrid R C f) i j = 3)
      else decide (countNeighbors (mkGrid R C f) i j = 3)) = f2 i j) :
    nextGeneration (mkGrid R C f) = mkGrid R C f2 := by
  apply list_ext_getD _ _ []
  · rw [nextGeneration_length, mkGrid_length, mkGrid_length]
  · intro n hn
    rw [nextGeneration_length, mkGrid_length] at hn
    simp only [nextGeneration]
    rw [mapWithIdx_getD _ 0 n (mkGrid R C f) [] []
      (by rw [mkGrid_length]; exact hn)]
    rw [mkGrid_getD R C f2 n hn, mkGrid_getD R C f n hn, Nat.zero_add]
    apply list_ext_getD _ _ false
    · rw [mapWithIdx_length, List.length_map, List.length_map]
    · intro m hm
      rw [mapWithIdx_length, List.length_map, List.length_range] at hm
      rw [mapWithIdx_getD _ 0 m ((List.range C).map (f n)) false false
        (by rw [List.length_map, List.length_range]; exact hm)]
      rw [range_map_getD C m _ false hm, range_map_getD C m _ false hm,
        Nat.zero_add, mkGrid_headD_length R C f hR]
      rw [if_pos hm]
      exact hcell n m hn hm

theorem length_if_cons (P : Prop) [Decidable P] (a : α) (t : List α) :
    (if P then a :: t else t).length = (if P then 1 else 0) + t.length := by
  split_ifs
  · rw [List.length_cons]; omega
  · omega

theorem toNat_coe_sub_one (i : Nat) : ((i : Int) + (-1)).toNat = i - 1 := by
  omega

theorem toNat_coe_add_zero (i : Nat) : ((i : Int) + 0).toNat = i := by omega

theorem toNat_coe_add_one (i : Nat) : ((i : Int) + 1).toNat = i + 1 := by omega

set_option maxHeartbeats 1600000 in
theorem blinkerH_step_cell (R C r c i j : Nat) (h1 : 1 ≤ r) (h2 : r + 1 < R)
    (h3 : 1 ≤ c) (h4 : c + 1 < C) (hi : i < R) (hj : j < C) :
    (if blinkerH r c i j then
      decide (countNeighbors (mkGrid R C (blinkerH r c)) i j = 2 ∨
        countNeighbors (mkGrid R C (blinkerH r c)) i j = 3)
    else decide (countNeighbors (mkGrid R C (blinkerH r c)) i j = 3))
      = blinkerV r c i j := by
  rw [countNeighbors_mkGrid R C (blinkerH r c) i j (by omega)]
  simp only [directions, blinkerH, blinkerV, List.filter_cons, List.filter_nil,
    length_if_cons, List.length_nil, decide_eq_true_eq, toNat_coe_sub_one,
    toNat_coe_add_zero, toNat_coe_add_one]
  split_ifs <;>
    (simp only [decide_eq_decide, true_or, or_true, false_or, or_false,
       true_iff, iff_true, false_iff, iff_false]
     all_goals omega)

set_option maxHeartbeats 1600000 in
theorem blinkerV_step_cell (R C r c i j : Nat) (h1 : 1 ≤ r) (h2 : r + 1 < R)
    (h3 : 1 ≤ c) (h4 : c + 1 < C) (hi : i < R) (hj : j < C) :
    (if blinkerV r c i j then
      decide (countNeighbors (mkGrid R C (blinkerV r c)) i j = 2 ∨
        countNeighbors (mkGrid R C (blinkerV r c)) i j = 3)
    else decide (countNeighbors (mkGrid R C (blinkerV r c)) i j = 3))
      = blinkerH r c i j := by
  rw [countNeighbors_mkGrid R C (blinkerV r c) i j (by omega)]
  simp only [directions, blinkerH, blinkerV, List.filter_cons, List.filter_nil,
    length_if_cons, List.length_nil, decide_eq_true_eq, toNat_coe_sub_one,
    toNat_coe_add_zero, toNat_coe_add_one]
  split_ifs <;>
    (simp only [decide_eq_decide, true_or, or_true, false_or, or_false,
       true_iff, iff_true, false_iff, iff_false]
     all_goals omega)

/-- **C4**: a horizontal blinker whose center has its row neighbors above
and below in-bounds becomes the vertical blinker through the same center
after one step, and returns to the horizontal form after two steps. -/
theorem blinker_spec (R C r c : Nat) (h1 : 1 ≤ r) (h2 : r + 1 < R)
    (h3 : 1 ≤ c) (h4 : c + 1 < C) :
    nextGeneration (mkGrid R C (blinkerH r c)) = mkGrid R C (blinkerV r c) ∧
    nextGeneration (nextGeneration (mkGrid R C (blinkerH r c)))
      = mkGrid R C (blinkerH r c) := by
  have hHV : nextGeneration (mkGrid R C (blinkerH r c))
      = mkGrid R C (blinkerV r c) :=
    nextGeneration_mkGrid_eq R C (by omega) _ _
      (fun i j hi hj => blinkerH_step_cell R C r c i j h1 h2 h3 h4 hi hj)
  have hVH : nextGeneration (mkGrid R C (blinkerV r c))
      = mkGrid R C (blinkerH r c) :=
    nextGeneration_mkGrid_eq R C (by omega) _ _
      (fun i j hi hj => blinkerV_step_cell R C r c i j h1 h2 h3 h4 hi hj)
  exact ⟨hHV, by rw [hHV, hVH]⟩

/-- Witness for C4 on a 5×5 grid with the blinker centered at (2,2). -/
theorem blinker_spec_witness :
    1 ≤ 2 ∧ 2 + 1 < 5 ∧
    (nextGeneration (mkGrid 5 5 (blinkerH 2 2)) = mkGrid 5 5 (blinkerV 2 2) ∧
      nextGeneration (nextGeneration (mkGrid 5 5 (blinkerH 2 2)))
        = mkGrid 5 5 (blinkerH 2 2)) :=
  ⟨by decide, by decide,
    blinker_spec 5 5 2 2 (by decide) (by decide) (by decide) (by decide)⟩

/-- **C10**: `pointerUp` always clears `isDragging` and changes nothing
else, in every state, running or not. -/
theorem handleMouseUp_spec (s : GameState) :
    (handleMouseUp s).isDragging = false ∧
    (handleMouseUp s).grid = s.grid ∧
    (handleMouseUp s).generation = s.generation ∧
    (handleMouseUp s).speed = s.speed ∧
    (handleMouseUp s).isRunning = s.isRunning ∧
    (handleMouseUp s).dragMode = s.dragMode := by
  simp [handleMouseUp]

end GameOfLife
